import Mathlib

/-!
Shallow embedding of the Mathison Python SDKs.

Two client packages are modelled:

* Client A (`src/sdks/python/mathison_sdk/__init__.py`): a `requests`-based
  synchronous client for the chat/beams API, namespace `ClientA`.
* Client B (`src/version-one/sdks/python/mathison_sdk/client.py`): an
  `httpx`-based pair of clients (`MathisonClient` sync, `AsyncMathisonClient`
  async) for the graph/job API, namespaces `ClientB` and `AsyncClientB`.

JSON values are modelled by `JValue`; Python exceptions by `PyExc`; the
outcome of one network exchange by `Transport`.  Fallible Python code is
embedded as `Except PyExc`-valued functions.  Response objects are modelled
with distinct keys (as produced by `json.loads` on wire responses).
-/

/-- A JSON value, as returned by `response.json()` in both clients. -/
inductive JValue where
  | null : JValue
  | bool (b : Bool) : JValue
  | int (n : Int) : JValue
  | str (s : String) : JValue
  | arr (xs : List JValue) : JValue
  | obj (kvs : List (String × JValue)) : JValue

/-- Python exceptions that the embedded code can raise.
`requestFailed` is Client A's wrapper `Exception("API request failed: ...")`,
carrying the underlying cause; the others are library/runtime exceptions. -/
inductive PyExc where
  | httpStatusError (status : Nat) : PyExc
  | transportError (msg : String) : PyExc
  | keyError (key : String) : PyExc
  | typeError (msg : String) : PyExc
  | requestFailed (cause : PyExc) : PyExc
deriving DecidableEq

/-- Returns true exactly on Client A's generic wrapper exception. -/
def PyExc.isRequestFailed : PyExc → Bool
  | .requestFailed _ => true
  | _ => false

/-- Outcome of one HTTP exchange: either the transport layer fails
(connection refused, timeout, DNS), or a response with a status code and a
JSON body arrives. -/
inductive Transport where
  | fail (msg : String) : Transport
  | response (status : Nat) (body : JValue) : Transport

/-- Python `d[k]` on a parsed-JSON value: a `KeyError` when the key is
missing from an object, a `TypeError` when the value is not an object. -/
def pyGetItem (v : JValue) (k : String) : Except PyExc JValue :=
  match v with
  | .obj kvs =>
      match kvs.lookup k with
      | some x => .ok x
      | none => .error (.keyError k)
  | _ => .error (.typeError "object is not subscriptable")

/-- Python truthiness of an optional string: `if s:` is taken iff the value
is present and non-empty. -/
def pyTruthyOptStr : Option String → Bool
  | none => false
  | some s => s != ""

/-- Python truthiness of an optional list: `if l:` is taken iff the value is
present and non-empty. -/
def pyTruthyOptList {α : Type} : Option (List α) → Bool
  | none => false
  | some l => !l.isEmpty

/-- Python `str.rstrip('/')`: removes every trailing `'/'` character. -/
def pyRstripSlash (s : String) : String :=
  ⟨(s.data.reverse.dropWhile (fun c => c == '/')).reverse⟩

/-- The `**data` call of the subscripted typing alias `Dict[str, Any]`.
CPython's `typing._BaseGenericAlias.__call__` raises
`TypeError("Type Dict cannot be instantiated; use dict() instead")` because
`Dict` is created with `_inst=False`; when `data` is not a mapping the
`**`-unpacking raises a `TypeError` even earlier.  Either way the call
raises a `TypeError` for every argument. -/
def typingDictCall (data : JValue) : Except PyExc JValue :=
  match data with
  | .obj _ => .error (.typeError "Type Dict cannot be instantiated; use dict() instead")
  | _ => .error (.typeError "argument after ** must be a mapping")

/-- The effective request sent on the wire: method, full URL, headers, the
query parameters actually transmitted, and the JSON body if any. -/
structure HttpRequest where
  method : String
  url : String
  headers : List (String × String)
  params : List (String × JValue)
  body : Option (List (String × JValue))

/-- Sequential evaluation of a fallible function over a list, stopping at
the first error — the semantics of Client A's parsing list comprehensions. -/
def mapExcept {α β : Type} (f : α → Except PyExc β) : List α → Except PyExc (List β)
  | [] => .ok []
  | x :: xs => do
      let y ← f x
      let ys ← mapExcept f xs
      .ok (y :: ys)

namespace ClientA

/-- The `Beam` dataclass of Client A.  The dataclass performs no type
checking, so each field holds whatever JSON value was passed in. -/
structure Beam where
  beam_id : JValue
  kind : JValue
  title : JValue
  tags : JValue
  body : JValue
  status : JValue
  pinned : JValue
  updated_at_ms : JValue

/-- The `BeamQueryResponse` dataclass of Client A. -/
structure BeamQueryResponse where
  beams : List Beam
  total : JValue

/-- The state of Client A's `MathisonClient` after `__init__`: the stored
configuration plus the headers installed on the `requests.Session`. -/
structure State where
  base_url : String
  api_key : Option String
  timeout : Int
  session_headers : List (String × String)

/-- Client A `MathisonClient.__init__`: strips trailing slashes from
`base_url`, installs `Authorization` on the session iff `api_key` is truthy,
then installs `Content-Type: application/json`. -/
def init (base_url : String) (api_key : Option String) (timeout : Int) : State :=
  { base_url := pyRstripSlash base_url
    api_key := api_key
    timeout := timeout
    session_headers :=
      (match api_key with
       | some k => if k != "" then [("Authorization", "Bearer " ++ k)] else []
       | none => []) ++ [("Content-Type", "application/json")] }

/-- The filtering comprehension in `_request`:
`{k: v for k, v in params.items() if v is not None}`. -/
def filterNoneParams (ps : List (String × Option JValue)) : List (String × JValue) :=
  ps.filterMap fun kv => kv.2.map fun v => (kv.1, v)

/-- Query parameters actually sent by `_request`: when `params` is falsy
(absent or empty) nothing is sent; otherwise the `None`-valued entries are
filtered out. -/
def effectiveParams : Option (List (String × Option JValue)) → List (String × JValue)
  | none => []
  | some ps => if ps.isEmpty then [] else filterNoneParams ps

/-- The request built by Client A's `_request`: URL is `base_url + path`,
headers are the session headers, query parameters are the filtered params. -/
def buildRequest (st : State) (method path : String)
    (json : Option (List (String × JValue)))
    (params : Option (List (String × Option JValue))) : HttpRequest :=
  { method := method
    url := st.base_url ++ path
    headers := st.session_headers
    params := effectiveParams params
    body := json }

/-- The body of `_request`'s `try` block: `requests` raises a transport
error on connection failure, and `response.raise_for_status()` raises
`requests.exceptions.HTTPError` exactly for status codes in `[400, 600)`;
otherwise `response.json()` is returned. -/
def requestTry (t : Transport) : Except PyExc JValue :=
  match t with
  | .fail msg => .error (.transportError msg)
  | .response status body =>
      if 400 ≤ status ∧ status < 600 then .error (.httpStatusError status)
      else .ok body

/-- Client A `MathisonClient._request` response handling: any
`requests.exceptions.RequestException` from the `try` block is re-raised as
the single generic `Exception("API request failed: ...")`, modelled as
`PyExc.requestFailed` carrying the cause. -/
def request (t : Transport) : Except PyExc JValue :=
  match requestTry t with
  | .ok v => .ok v
  | .error e => .error (.requestFailed e)

/-- Client A `health`: returns the parsed JSON of `GET /health` unchanged. -/
def health (t : Transport) : Except PyExc JValue :=
  request t

/-- The `params` dict literal built by Client A `query_beams`, with the
optional arguments still unfiltered (`None` for omitted arguments). -/
def query_beams_params (text : Option String) (tags kinds : Option (List String))
    (include_dead : Option Bool) (limit : Option Int) :
    List (String × Option JValue) :=
  [("text", text.map JValue.str),
   ("tags", tags.map fun l => JValue.arr (l.map JValue.str)),
   ("kinds", kinds.map fun l => JValue.arr (l.map JValue.str)),
   ("include_dead", include_dead.map JValue.bool),
   ("limit", limit.map JValue.int)]

/-- The request issued by Client A `query_beams`:
`GET /api/beams` with the params dict passed through `_request`. -/
def query_beams_request (st : State) (text : Option String)
    (tags kinds : Option (List String)) (include_dead : Option Bool)
    (limit : Option Int) : HttpRequest :=
  buildRequest st "GET" "/api/beams" none
    (some (query_beams_params text tags kinds include_dead limit))

/-- The request issued by Client A `get_chat_history`:
`GET /api/chat/history` with params `{limit: ..., offset: ...}`. -/
def get_chat_history_request (st : State) (limit offset : Option Int) : HttpRequest :=
  buildRequest st "GET" "/api/chat/history" none
    (some [("limit", limit.map JValue.int), ("offset", offset.map JValue.int)])

/-- Construction of one `Beam` from one element of the `beams` array, as in
`query_beams`' comprehension: every field is fetched with `b[key]` and
passed verbatim to the dataclass. -/
def beamOfJson (b : JValue) : Except PyExc Beam := do
  let bid ← pyGetItem b "beam_id"
  let kind ← pyGetItem b "kind"
  let title ← pyGetItem b "title"
  let tags ← pyGetItem b "tags"
  let body ← pyGetItem b "body"
  let status ← pyGetItem b "status"
  let pinned ← pyGetItem b "pinned"
  let upd ← pyGetItem b "updated_at_ms"
  .ok ⟨bid, kind, title, tags, body, status, pinned, upd⟩

/-- Response handling of Client A `query_beams`: iterate over
`data['beams']` building `Beam`s in order, then read `data['total']`. -/
def query_beams_parse (data : JValue) : Except PyExc BeamQueryResponse := do
  let beamsJson ← pyGetItem data "beams"
  let arr ←
    match beamsJson with
    | .arr xs => Except.ok xs
    | _ => Except.error (.typeError "object is not iterable")
  let beams ← mapExcept beamOfJson arr
  let total ← pyGetItem data "total"
  .ok ⟨beams, total⟩

/-- Client A `query_beams` end to end for a given transport outcome. -/
def query_beams_result (t : Transport) : Except PyExc BeamQueryResponse := do
  let data ← request t
  query_beams_parse data

/-- The JSON payload built by Client A `create_beam`: the four required
fields, then `beam_id` under `if beam_id:` (truthiness), then `pinned`
under `if pinned is not None:`. -/
def create_beam_payload (kind title : String) (tags : List String) (body : String)
    (beam_id : Option String) (pinned : Option Bool) : List (String × JValue) :=
  [("kind", JValue.str kind), ("title", JValue.str title),
   ("tags", JValue.arr (tags.map JValue.str)), ("body", JValue.str body)]
  ++ (match beam_id with
      | some b => if b != "" then [("beam_id", JValue.str b)] else []
      | none => [])
  ++ (match pinned with
      | some p => [("pinned", JValue.bool p)]
      | none => [])

/-- The JSON payload built by Client A `update_beam`: each optional field is
added under a truthiness test (`if title:`, `if tags:`, `if body:`). -/
def update_beam_payload (title : Option String) (tags : Option (List String))
    (body : Option String) : List (String × JValue) :=
  (match title with
   | some s => if s != "" then [("title", JValue.str s)] else []
   | none => [])
  ++ (match tags with
      | some l => if !l.isEmpty then [("tags", JValue.arr (l.map JValue.str))] else []
      | none => [])
  ++ (match body with
      | some s => if s != "" then [("body", JValue.str s)] else []
      | none => [])

/-- The JSON payload built by Client A `tombstone_beam`: `reason_code`
always, `approval_token` under a truthiness test. -/
def tombstone_beam_payload (reason_code : String) (approval_token : Option String) :
    List (String × JValue) :=
  [("reason_code", JValue.str reason_code)]
  ++ (match approval_token with
      | some s => if s != "" then [("approval_token", JValue.str s)] else []
      | none => [])

/-- The attribute surface of Client A's `MathisonClient` class, as defined
in `src/sdks/python/mathison_sdk/__init__.py`. -/
def methods : List String :=
  ["__init__", "_request", "health", "get_status", "get_identity",
   "send_message", "get_chat_history", "query_beams", "get_beam",
   "create_beam", "update_beam", "pin_beam", "unpin_beam", "retire_beam",
   "tombstone_beam"]

/-- The attributes of Client A's `MathisonClient` that the package's own
test suite (`src/sdks/python/tests/test_client.py`) invokes:
`client.close()` and the `with MathisonClient() as client:` protocol. -/
def testRequiredMethods : List String :=
  ["__init__", "close", "__enter__", "__exit__"]

end ClientA

namespace ClientB

/-- The state of Client B's synchronous `MathisonClient`: the stored
configuration plus whether the underlying `httpx.Client` has been closed. -/
structure State where
  base_url : String
  api_key : Option String
  timeout : Rat
  closed : Bool

/-- Client B `MathisonClient.__init__`: strips trailing slashes from
`base_url` and opens an `httpx.Client`. -/
def init (base_url : String) (api_key : Option String) (timeout : Rat) : State :=
  { base_url := pyRstripSlash base_url
    api_key := api_key
    timeout := timeout
    closed := false }

/-- Client B `MathisonClient.close`: closes the `httpx.Client`. -/
def close (st : State) : State :=
  { st with closed := true }

/-- Client B `MathisonClient.__exit__`: calls `self.close()` regardless of
the exception information passed in. -/
def exitScope (st : State) (exc : Option PyExc) : State :=
  close st

/-- Client B `MathisonClient._headers`: `Content-Type` always, then
`Authorization` iff `self.api_key` is truthy. -/
def headers (api_key : Option String) : List (String × String) :=
  [("Content-Type", "application/json")]
  ++ (match api_key with
      | some k => if k != "" then [("Authorization", "Bearer " ++ k)] else []
      | none => [])

/-- The request built by Client B `_get`. -/
def getRequest (st : State) (path : String)
    (params : Option (List (String × JValue))) : HttpRequest :=
  { method := "GET"
    url := st.base_url ++ path
    headers := headers st.api_key
    params := params.getD []
    body := none }

/-- The request built by Client B `_post`. -/
def postRequest (st : State) (path : String)
    (json : Option (List (String × JValue))) : HttpRequest :=
  { method := "POST"
    url := st.base_url ++ path
    headers := headers st.api_key
    params := []
    body := json }

/-- Response handling of Client B `_get`/`_post`: `httpx` raises its own
transport exception on connection failure, and `response.raise_for_status()`
raises `httpx.HTTPStatusError` for every non-2xx status; no wrapping is
performed.  On success `response.json()` is returned. -/
def requestResult (t : Transport) : Except PyExc JValue :=
  match t with
  | .fail msg => .error (.transportError msg)
  | .response status body =>
      if 200 ≤ status ∧ status < 300 then .ok body
      else .error (.httpStatusError status)

/-- The request issued by Client B `update_node`: the path is the literal
string `"/memory/nodes/{id}"` (no f-prefix in the source), so `id` is never
interpolated. -/
def update_node_request (st : State) (id : String) : HttpRequest :=
  postRequest st "/memory/nodes/{id}" none

/-- The request issued by Client B `get_node` (for contrast with
`update_node`: here the source uses an f-string). -/
def get_node_request (st : State) (id : String) : HttpRequest :=
  getRequest st ("/memory/nodes/" ++ id) none

/-- The request issued by Client B `get_job_logs`: a bare
`self._get("/jobs/logs")` — neither `job_id` nor `limit` is used. -/
def get_job_logs_request (st : State) (job_id : Option String)
    (limit : Option Int) : HttpRequest :=
  getRequest st "/jobs/logs" none

/-- Client B `get_job_logs` result: `Dict[str, Any](**data)` applied to the
parsed response. -/
def get_job_logs_result (job_id : Option String) (limit : Option Int)
    (t : Transport) : Except PyExc JValue := do
  let data ← requestResult t
  typingDictCall data

/-- Client B `get_hyperedge` result: `Dict[str, Any](**data)`. -/
def get_hyperedge_result (id : String) (t : Transport) : Except PyExc JValue := do
  let data ← requestResult t
  typingDictCall data

/-- Client B `get_node_edges` result: `Dict[str, Any](**data)`. -/
def get_node_edges_result (id : String) (t : Transport) : Except PyExc JValue := do
  let data ← requestResult t
  typingDictCall data

/-- Client B `get_node_hyperedges` result: `Dict[str, Any](**data)`. -/
def get_node_hyperedges_result (id : String) (t : Transport) : Except PyExc JValue := do
  let data ← requestResult t
  typingDictCall data

/-- Client B `get_openapi` result: `Dict[str, Any](**data)`. -/
def get_openapi_result (t : Transport) : Except PyExc JValue := do
  let data ← requestResult t
  typingDictCall data

/-- The attribute surface of Client B's synchronous `MathisonClient`. -/
def methods : List String :=
  ["__init__", "__enter__", "__exit__", "close", "_headers", "_get", "_post",
   "get_genome", "get_health", "get_job_logs", "resume_job", "run_job",
   "get_job_status", "create_edge", "get_edge", "create_hyperedge",
   "get_hyperedge", "create_node", "get_node", "update_node",
   "get_node_edges", "get_node_hyperedges", "search_nodes", "interpret",
   "get_openapi"]

end ClientB

namespace AsyncClientB

/-- The state of Client B's `AsyncMathisonClient`: the stored configuration
plus whether the underlying `httpx.AsyncClient` has been closed. -/
structure State where
  base_url : String
  api_key : Option String
  timeout : Rat
  closed : Bool

/-- Client B `AsyncMathisonClient.__init__`. -/
def init (base_url : String) (api_key : Option String) (timeout : Rat) : State :=
  { base_url := pyRstripSlash base_url
    api_key := api_key
    timeout := timeout
    closed := false }

/-- Client B `AsyncMathisonClient.close`: awaits `self._client.aclose()`. -/
def close (st : State) : State :=
  { st with closed := true }

/-- Client B `AsyncMathisonClient.__aexit__`: awaits `self.close()`
regardless of the exception information passed in. -/
def exitScope (st : State) (exc : Option PyExc) : State :=
  close st

/-- Client B `AsyncMathisonClient._headers` (same body as the sync one). -/
def headers (api_key : Option String) : List (String × String) :=
  [("Content-Type", "application/json")]
  ++ (match api_key with
      | some k => if k != "" then [("Authorization", "Bearer " ++ k)] else []
      | none => [])

/-- The request built by `AsyncMathisonClient._get`. -/
def getRequest (st : State) (path : String)
    (params : Option (List (String × JValue))) : HttpRequest :=
  { method := "GET"
    url := st.base_url ++ path
    headers := headers st.api_key
    params := params.getD []
    body := none }

/-- The request built by `AsyncMathisonClient._post`. -/
def postRequest (st : State) (path : String)
    (json : Option (List (String × JValue))) : HttpRequest :=
  { method := "POST"
    url := st.base_url ++ path
    headers := headers st.api_key
    params := []
    body := json }

/-- Response handling of `AsyncMathisonClient._get`/`_post`: identical to
the synchronous version — `httpx` exceptions propagate unwrapped. -/
def requestResult (t : Transport) : Except PyExc JValue :=
  match t with
  | .fail msg => .error (.transportError msg)
  | .response status body =>
      if 200 ≤ status ∧ status < 300 then .ok body
      else .error (.httpStatusError status)

/-- The request issued by `AsyncMathisonClient.update_node`: the path is
the literal string `"/memory/nodes/{id}"`, `id` is never interpolated. -/
def update_node_request (st : State) (id : String) : HttpRequest :=
  postRequest st "/memory/nodes/{id}" none

/-- The request issued by `AsyncMathisonClient.get_job_logs`: a bare
`await self._get("/jobs/logs")` — neither argument is used. -/
def get_job_logs_request (st : State) (job_id : Option String)
    (limit : Option Int) : HttpRequest :=
  getRequest st "/jobs/logs" none

/-- Async `get_job_logs` result: `Dict[str, Any](**data)`. -/
def get_job_logs_result (job_id : Option String) (limit : Option Int)
    (t : Transport) : Except PyExc JValue := do
  let data ← requestResult t
  typingDictCall data

/-- Async `get_hyperedge` result: `Dict[str, Any](**data)`. -/
def get_hyperedge_result (id : String) (t : Transport) : Except PyExc JValue := do
  let data ← requestResult t
  typingDictCall data

/-- Async `get_node_edges` result: `Dict[str, Any](**data)`. -/
def get_node_edges_result (id : String) (t : Transport) : Except PyExc JValue := do
  let data ← requestResult t
  typingDictCall data

/-- Async `get_node_hyperedges` result: `Dict[str, Any](**data)`. -/
def get_node_hyperedges_result (id : String) (t : Transport) : Except PyExc JValue := do
  let data ← requestResult t
  typingDictCall data

/-- Async `get_openapi` result: `Dict[str, Any](**data)`. -/
def get_openapi_result (t : Transport) : Except PyExc JValue := do
  let data ← requestResult t
  typingDictCall data

end AsyncClientB

/-! ## Helper lemmas -/

/-- Dropping trailing slashes from a list that does not end in a slash is
the identity. -/
theorem rstrip_of_getLast_ne (l : List Char) (h : l.getLast? ≠ some '/') :
    (l.reverse.dropWhile (fun c => c == '/')).reverse = l := by
  cases hrev : l.reverse with
  | nil =>
      have hl : l = [] := by simpa using congrArg List.reverse hrev
      simp [hrev, hl]
  | cons c t =>
      have hc : c ≠ '/' := by
        intro hceq
        apply h
        rw [← List.head?_reverse, hrev, hceq]
        rfl
      rw [List.dropWhile_cons_of_neg (by simp [hc])]
      rw [← hrev, List.reverse_reverse]

/-- Dropping trailing slashes from a list with exactly one trailing slash
removes exactly that slash. -/
theorem rstrip_append_slash (l : List Char) (h : l.getLast? ≠ some '/') :
    ((l ++ ['/']).reverse.dropWhile (fun c => c == '/')).reverse = l := by
  have hrev : (l ++ ['/']).reverse = '/' :: l.reverse := by simp
  rw [hrev, List.dropWhile_cons_of_pos (by simp)]
  exact rstrip_of_getLast_ne l h

/-- Python `rstrip('/')` leaves a string with no trailing slash unchanged. -/
theorem pyRstripSlash_of_no_trailing (s : String) (h : s.data.getLast? ≠ some '/') :
    pyRstripSlash s = s := by
  unfold pyRstripSlash
  rw [rstrip_of_getLast_ne s.data h]

/-- Python `rstrip('/')` on a string with exactly one trailing slash removes
exactly that slash. -/
theorem pyRstripSlash_one_trailing (s : String) (h : s.data.getLast? ≠ some '/') :
    pyRstripSlash (s ++ "/") = s := by
  unfold pyRstripSlash
  have hd : (s ++ "/").data = s.data ++ ['/'] := by simp [String.data_append]
  rw [hd, rstrip_append_slash s.data h]

/-- The subscripted typing alias call raises a `TypeError` for every
argument value. -/
theorem typingDictCall_typeError (data : JValue) :
    ∃ m, typingDictCall data = .error (.typeError m) := by
  cases data <;> exact ⟨_, rfl⟩

/-- If a fallible function succeeds on every element of a list, the
sequential traversal succeeds, preserves length, and maps elementwise. -/
theorem mapExcept_ok_of_forall {α β : Type} (f : α → Except PyExc β) (l : List α)
    (h : ∀ b ∈ l, ∃ y, f b = .ok y) :
    ∃ ys, mapExcept f l = .ok ys ∧ ys.length = l.length
      ∧ ∀ i y b, ys.get? i = some y → l.get? i = some b → f b = .ok y := by
  induction l with
  | nil =>
      refine ⟨[], rfl, rfl, ?_⟩
      intro i y b h1 _
      simp at h1
  | cons x xs ih =>
      obtain ⟨y, hy⟩ := h x (by simp)
      obtain ⟨ys, hys, hlen, hcorr⟩ := ih (fun b hb => h b (by simp [hb]))
      refine ⟨y :: ys, ?_, by simp [hlen], ?_⟩
      · simp only [mapExcept, hy, hys]
        rfl
      · intro i z b h1 h2
        cases i with
        | zero =>
            simp at h1 h2
            rw [← h1, ← h2]
            exact hy
        | succ n =>
            exact hcorr n z b (by simpa using h1) (by simpa using h2)

/-- Every key of the filtered parameters comes from a pair of the original
parameter dict whose value was not `None`. -/
theorem keys_filterNone_sub {ps : List (String × Option JValue)} {k : String}
    (h : k ∈ (ClientA.filterNoneParams ps).map Prod.fst) : ∃ v, (k, some v) ∈ ps := by
  induction ps with
  | nil => simp [ClientA.filterNoneParams] at h
  | cons kv ps ih =>
      obtain ⟨kp, vp⟩ := kv
      cases vp with
      | none =>
          simp only [ClientA.filterNoneParams, List.filterMap_cons] at h
          obtain ⟨v, hv⟩ := ih h
          exact ⟨v, List.mem_cons_of_mem _ hv⟩
      | some v0 =>
          simp only [ClientA.filterNoneParams, List.filterMap_cons, Option.map_some,
            List.map_cons] at h
          rcases List.mem_cons.mp h with h1 | h2
          · exact ⟨v0, by rw [h1]; exact List.mem_cons_self _ _⟩
          · obtain ⟨v, hv⟩ := ih h2
            exact ⟨v, List.mem_cons_of_mem _ hv⟩

/-- Every key of the query parameters sent by `_request` comes from a pair
of the caller's parameter dict whose value was not `None`. -/
theorem keys_effectiveParams_sub {ps : List (String × Option JValue)} {k : String}
    (h : k ∈ (ClientA.effectiveParams (some ps)).map Prod.fst) :
    ∃ v, (k, some v) ∈ ps := by
  have hred : ClientA.effectiveParams (some ps)
      = if ps.isEmpty then [] else ClientA.filterNoneParams ps := rfl
  rw [hred] at h
  by_cases he : ps.isEmpty
  · rw [if_pos he] at h
    simp at h
  · rw [if_neg he] at h
    exact keys_filterNone_sub h

/-- Inversion of a successful `Except` bind. -/
theorem exceptBindOkInv {α β : Type} {e : Except PyExc α} {f : α → Except PyExc β} {y : β}
    (h : (e >>= f) = .ok y) : ∃ x, e = .ok x ∧ f x = .ok y := by
  cases e with
  | error err =>
      have hc : (Except.error err : Except PyExc β) = .ok y := h
      cases hc
  | ok x => exact ⟨x, rfl, h⟩

/-- When `beamOfJson` succeeds, every field of the produced `Beam` is
exactly the value fetched by `b[key]` for the corresponding key. -/
theorem beamOfJson_fields (b : JValue) (B : ClientA.Beam)
    (h : ClientA.beamOfJson b = .ok B) :
    pyGetItem b "beam_id" = .ok B.beam_id
    ∧ pyGetItem b "kind" = .ok B.kind
    ∧ pyGetItem b "title" = .ok B.title
    ∧ pyGetItem b "tags" = .ok B.tags
    ∧ pyGetItem b "body" = .ok B.body
    ∧ pyGetItem b "status" = .ok B.status
    ∧ pyGetItem b "pinned" = .ok B.pinned
    ∧ pyGetItem b "updated_at_ms" = .ok B.updated_at_ms := by
  unfold ClientA.beamOfJson at h
  obtain ⟨v1, e1, h⟩ := exceptBindOkInv h
  obtain ⟨v2, e2, h⟩ := exceptBindOkInv h
  obtain ⟨v3, e3, h⟩ := exceptBindOkInv h
  obtain ⟨v4, e4, h⟩ := exceptBindOkInv h
  obtain ⟨v5, e5, h⟩ := exceptBindOkInv h
  obtain ⟨v6, e6, h⟩ := exceptBindOkInv h
  obtain ⟨v7, e7, h⟩ := exceptBindOkInv h
  obtain ⟨v8, e8, h⟩ := exceptBindOkInv h
  have hB : ClientA.Beam.mk v1 v2 v3 v4 v5 v6 v7 v8 = B := by cases h; rfl
  rw [← hB]
  exact ⟨e1, e2, e3, e4, e5, e6, e7, e8⟩

/-! ## Claims -/

/-- C1, counterexample.  The claim says every endpoint of both clients
raises the single generic "request failed" error kind on a non-2xx status.
It fails twice on the code: Client B's `get_openapi` at a 404 response
raises the unwrapped `httpx.HTTPStatusError`, which is not the generic
wrapper kind; and Client A's `health` at a 304 response (non-2xx) raises
nothing at all, returning the parsed body. -/
theorem claim1_counterexample :
    ClientB.get_openapi_result (.response 404 .null)
      = .error (.httpStatusError 404)
    ∧ (PyExc.httpStatusError 404).isRequestFailed = false
    ∧ ClientA.health (.response 304 .null) = .ok .null :=
  ⟨rfl, rfl, rfl⟩

/-- C1, amended.  Client A's `_request` wraps every transport failure and
every 4xx/5xx response in the single generic "API request failed" error
carrying the underlying cause (3xx responses do not raise); Client B (sync
and async) propagates the transport library's own exceptions unwrapped — a
status error for every non-2xx response, a transport error for transport
failures — with no generic wrapping, and its endpoint methods (here
`get_openapi`) surface those unwrapped errors directly. -/
theorem claim1_error_kinds_amended (msg : String) (status : Nat) (body : JValue) :
    (ClientA.request (.fail msg) = .error (.requestFailed (.transportError msg)))
    ∧ (400 ≤ status → status < 600 →
        ClientA.request (.response status body)
          = .error (.requestFailed (.httpStatusError status)))
    ∧ (400 ≤ status → status < 600 →
        ClientA.health (.response status body)
          = .error (.requestFailed (.httpStatusError status)))
    ∧ (ClientB.requestResult (.fail msg) = .error (.transportError msg))
    ∧ (¬(200 ≤ status ∧ status < 300) →
        ClientB.requestResult (.response status body) = .error (.httpStatusError status))
    ∧ (¬(200 ≤ status ∧ status < 300) →
        ClientB.get_openapi_result (.response status body)
          = .error (.httpStatusError status))
    ∧ (AsyncClientB.requestResult (.fail msg) = .error (.transportError msg))
    ∧ (¬(200 ≤ status ∧ status < 300) →
        AsyncClientB.requestResult (.response status body)
          = .error (.httpStatusError status))
    ∧ (¬(200 ≤ status ∧ status < 300) →
        AsyncClientB.get_openapi_result (.response status body)
          = .error (.httpStatusError status)) := by
  refine ⟨rfl, ?_, ?_, rfl, ?_, ?_, rfl, ?_, ?_⟩
  · intro h1 h2
    simp [ClientA.request, ClientA.requestTry, h1, h2]
  · intro h1 h2
    simp [ClientA.health, ClientA.request, ClientA.requestTry, h1, h2]
  · intro h
    simp [ClientB.requestResult, h]
  · intro h
    simp only [ClientB.get_openapi_result, ClientB.requestResult, if_neg h]
    rfl
  · intro h
    simp [AsyncClientB.requestResult, h]
  · intro h
    simp only [AsyncClientB.get_openapi_result, AsyncClientB.requestResult, if_neg h]
    rfl

/-- C1, witness for the amended theorem at a transport failure, a 404
response and a connection-refused message. -/
theorem claim1_witness :
    ClientA.request (.fail "connection refused")
      = .error (.requestFailed (.transportError "connection refused"))
    ∧ ClientA.request (.response 404 .null)
      = .error (.requestFailed (.httpStatusError 404))
    ∧ ClientB.requestResult (.response 404 .null) = .error (.httpStatusError 404) := by
  have h := claim1_error_kinds_amended "connection refused" 404 JValue.null
  exact ⟨h.1, h.2.1 (by decide) (by decide), h.2.2.2.2.1 (by decide)⟩

/-- C2.  In Client B (sync and async), for every successful (2xx) JSON
response, `get_job_logs`, `get_hyperedge`, `get_node_edges`,
`get_node_hyperedges` and `get_openapi` raise a `TypeError` when evaluating
`Dict[str, Any](**data)`: the subscripted typing alias cannot be
instantiated, so the documented typed result is unreachable. -/
theorem claim2_typed_result_unreachable (job_id : Option String) (limit : Option Int)
    (id : String) (status : Nat) (body : JValue)
    (h2 : 200 ≤ status) (h3 : status < 300) :
    (∃ m, ClientB.get_job_logs_result job_id limit (.response status body)
        = .error (.typeError m))
    ∧ (∃ m, ClientB.get_hyperedge_result id (.response status body)
        = .error (.typeError m))
    ∧ (∃ m, ClientB.get_node_edges_result id (.response status body)
        = .error (.typeError m))
    ∧ (∃ m, ClientB.get_node_hyperedges_result id (.response status body)
        = .error (.typeError m))
    ∧ (∃ m, ClientB.get_openapi_result (.response status body)
        = .error (.typeError m))
    ∧ (∃ m, AsyncClientB.get_job_logs_result job_id limit (.response status body)
        = .error (.typeError m))
    ∧ (∃ m, AsyncClientB.get_hyperedge_result id (.response status body)
        = .error (.typeError m))
    ∧ (∃ m, AsyncClientB.get_node_edges_result id (.response status body)
        = .error (.typeError m))
    ∧ (∃ m, AsyncClientB.get_node_hyperedges_result id (.response status body)
        = .error (.typeError m))
    ∧ (∃ m, AsyncClientB.get_openapi_result (.response status body)
        = .error (.typeError m)) := by
  have hok : (200 ≤ status ∧ status < 300) := ⟨h2, h3⟩
  have hreqB : ClientB.requestResult (.response status body) = .ok body := by
    simp [ClientB.requestResult, hok]
  have hreqA : AsyncClientB.requestResult (.response status body) = .ok body := by
    simp [AsyncClientB.requestResult, hok]
  obtain ⟨m, hm⟩ := typingDictCall_typeError body
  refine ⟨⟨m, ?_⟩, ⟨m, ?_⟩, ⟨m, ?_⟩, ⟨m, ?_⟩, ⟨m, ?_⟩, ⟨m, ?_⟩, ⟨m, ?_⟩, ⟨m, ?_⟩, ⟨m, ?_⟩, ⟨m, ?_⟩⟩
  · simp only [ClientB.get_job_logs_result, hreqB]; simpa using hm
  · simp only [ClientB.get_hyperedge_result, hreqB]; simpa using hm
  · simp only [ClientB.get_node_edges_result, hreqB]; simpa using hm
  · simp only [ClientB.get_node_hyperedges_result, hreqB]; simpa using hm
  · simp only [ClientB.get_openapi_result, hreqB]; simpa using hm
  · simp only [AsyncClientB.get_job_logs_result, hreqA]; simpa using hm
  · simp only [AsyncClientB.get_hyperedge_result, hreqA]; simpa using hm
  · simp only [AsyncClientB.get_node_edges_result, hreqA]; simpa using hm
  · simp only [AsyncClientB.get_node_hyperedges_result, hreqA]; simpa using hm
  · simp only [AsyncClientB.get_openapi_result, hreqA]; simpa using hm

/-- C2, witness at a 200 response with body `{"a": 1}`. -/
theorem claim2_witness :
    (∃ m, ClientB.get_job_logs_result none none
        (.response 200 (.obj [("a", .int 1)])) = .error (.typeError m))
    ∧ (∃ m, ClientB.get_openapi_result
        (.response 200 (.obj [("a", .int 1)])) = .error (.typeError m)) := by
  have h := claim2_typed_result_unreachable none none "x" 200
    (JValue.obj [("a", JValue.int 1)]) (by decide) (by decide)
  exact ⟨h.1, h.2.2.2.2.1⟩

/-- C3.  In Client B (sync and async), `update_node` posts to the literal
path string `/memory/nodes/{id}`: the `id` argument is never interpolated,
so the request issued is identical for any two ids. -/
theorem claim3_update_node_literal_path (st : ClientB.State) (sta : AsyncClientB.State)
    (id1 id2 : String) :
    ClientB.update_node_request st id1 = ClientB.update_node_request st id2
    ∧ (ClientB.update_node_request st id1).url = st.base_url ++ "/memory/nodes/{id}"
    ∧ (ClientB.update_node_request st id1).method = "POST"
    ∧ AsyncClientB.update_node_request sta id1 = AsyncClientB.update_node_request sta id2
    ∧ (AsyncClientB.update_node_request sta id1).url
        = sta.base_url ++ "/memory/nodes/{id}" :=
  ⟨rfl, rfl, rfl, rfl, rfl⟩

/-- C10.  In Client B (sync and async), `get_job_logs` issues the identical
request — `GET` to `/jobs/logs` with no query parameters — for any two
values of its `job_id` and `limit` arguments. -/
theorem claim10_job_logs_args_ignored (st : ClientB.State) (sta : AsyncClientB.State)
    (j1 j2 : Option String) (l1 l2 : Option Int) :
    ClientB.get_job_logs_request st j1 l1 = ClientB.get_job_logs_request st j2 l2
    ∧ (ClientB.get_job_logs_request st j1 l1).method = "GET"
    ∧ (ClientB.get_job_logs_request st j1 l1).url = st.base_url ++ "/jobs/logs"
    ∧ (ClientB.get_job_logs_request st j1 l1).params = []
    ∧ AsyncClientB.get_job_logs_request sta j1 l1
        = AsyncClientB.get_job_logs_request sta j2 l2
    ∧ (AsyncClientB.get_job_logs_request sta j1 l1).url = sta.base_url ++ "/jobs/logs"
    ∧ (AsyncClientB.get_job_logs_request sta j1 l1).params = [] :=
  ⟨rfl, rfl, rfl, rfl, rfl, rfl, rfl⟩

/-- C4.  For every constructed client, a `base_url` with no trailing slash
is stored unchanged, and a `base_url` with exactly one trailing slash is
stored with that slash removed. -/
theorem claim4_base_url_trailing_slash (api_key : Option String) (tA : Int) (tB : Rat)
    (s u : String) :
    (s.data.getLast? ≠ some '/' →
        (ClientA.init s api_key tA).base_url = s
        ∧ (ClientB.init s api_key tB).base_url = s
        ∧ (AsyncClientB.init s api_key tB).base_url = s)
    ∧ (u.data.getLast? ≠ some '/' →
        (ClientA.init (u ++ "/") api_key tA).base_url = u
        ∧ (ClientB.init (u ++ "/") api_key tB).base_url = u
        ∧ (AsyncClientB.init (u ++ "/") api_key tB).base_url = u) := by
  constructor
  · intro h
    have hs := pyRstripSlash_of_no_trailing s h
    exact ⟨hs, hs, hs⟩
  · intro h
    have hu := pyRstripSlash_one_trailing u h
    exact ⟨hu, hu, hu⟩

/-- C4, witness at `base_url` inputs `"http://h"` and `"http://h" ++ "/"`. -/
theorem claim4_witness :
    (ClientA.init "http://h" none 30).base_url = "http://h"
    ∧ (ClientB.init "http://h" none 30).base_url = "http://h"
    ∧ (AsyncClientB.init "http://h" none 30).base_url = "http://h"
    ∧ (ClientA.init ("http://h" ++ "/") none 30).base_url = "http://h"
    ∧ (ClientB.init ("http://h" ++ "/") none 30).base_url = "http://h"
    ∧ (AsyncClientB.init ("http://h" ++ "/") none 30).base_url = "http://h" := by
  have h := claim4_base_url_trailing_slash none 30 30 "http://h" "http://h"
  have hno : ("http://h".data.getLast? ≠ some '/') := by decide
  obtain ⟨x1, x2, x3⟩ := h.1 hno
  obtain ⟨y1, y2, y3⟩ := h.2 hno
  exact ⟨x1, x2, x3, y1, y2, y3⟩

/-- C5.  In Client A, every optional argument of `query_beams` and
`get_chat_history` that is left as `None` has its key absent from the query
parameters actually sent (the `None`-filter in `_request`). -/
theorem claim5_none_params_omitted (st : ClientA.State) (text : Option String)
    (tags kinds : Option (List String)) (include_dead : Option Bool)
    (limit offset : Option Int) :
    ("limit" ∉ (ClientA.query_beams_request st text tags kinds include_dead
        none).params.map Prod.fst)
    ∧ ("text" ∉ (ClientA.query_beams_request st none tags kinds include_dead
        limit).params.map Prod.fst)
    ∧ ("tags" ∉ (ClientA.query_beams_request st text none kinds include_dead
        limit).params.map Prod.fst)
    ∧ ("kinds" ∉ (ClientA.query_beams_request st text tags none include_dead
        limit).params.map Prod.fst)
    ∧ ("include_dead" ∉ (ClientA.query_beams_request st text tags kinds none
        limit).params.map Prod.fst)
    ∧ ("limit" ∉ (ClientA.get_chat_history_request st none offset).params.map Prod.fst)
    ∧ ("offset" ∉ (ClientA.get_chat_history_request st limit none).params.map Prod.fst) := by
  refine ⟨?_, ?_, ?_, ?_, ?_, ?_, ?_⟩ <;>
  · intro hmem
    simp only [ClientA.query_beams_request, ClientA.get_chat_history_request,
      ClientA.buildRequest] at hmem
    obtain ⟨v, hv⟩ := keys_effectiveParams_sub hmem
    simp [ClientA.query_beams_params] at hv

/-- C5, witness at a concrete client with `text` supplied and `limit`
omitted. -/
theorem claim5_witness :
    "limit" ∉ (ClientA.query_beams_request (ClientA.init "u" none 30)
        (some "x") none none none none).params.map Prod.fst :=
  (claim5_none_params_omitted (ClientA.init "u" none 30)
    (some "x") none none none none none).1

/-- C6, counterexample.  The claim says a falsy optional argument is
omitted from the payload and produces the same payload as omitting the
argument.  It fails for `create_beam`'s `pinned`: the source guards it with
`is not None`, so `pinned=False` (falsy) is sent, and the payload differs
from the omitted-argument payload. -/
theorem claim6_counterexample :
    ("pinned" ∈ (ClientA.create_beam_payload "k" "t" [] "b" none
        (some false)).map Prod.fst)
    ∧ ("pinned" ∉ (ClientA.create_beam_payload "k" "t" [] "b" none
        none).map Prod.fst)
    ∧ ((ClientA.create_beam_payload "k" "t" [] "b" none (some false)).map Prod.fst
        ≠ (ClientA.create_beam_payload "k" "t" [] "b" none none).map Prod.fst) := by
  decide

/-- C6, amended.  Optional arguments guarded by truthiness in the source
(`beam_id` in `create_beam`; `title`, `tags`, `body` in `update_beam`;
`approval_token` in `tombstone_beam`) are omitted when falsy, producing the
same payload as omitting the argument; but `pinned` in `create_beam` is
guarded by `is not None` and is included in the payload for every
non-`None` value, including the falsy `False`. -/
theorem claim6_optional_payload_amended (kind title bodyv reason : String)
    (tags : List String) (pinned : Option Bool) (titleo bodyo : Option String)
    (tagso : Option (List String)) (p : Bool) :
    (ClientA.create_beam_payload kind title tags bodyv (some "") pinned
      = ClientA.create_beam_payload kind title tags bodyv none pinned)
    ∧ ("pinned" ∈ (ClientA.create_beam_payload kind title tags bodyv none
        (some p)).map Prod.fst)
    ∧ ("pinned" ∉ (ClientA.create_beam_payload kind title tags bodyv none
        none).map Prod.fst)
    ∧ (ClientA.update_beam_payload (some "") tagso bodyo
      = ClientA.update_beam_payload none tagso bodyo)
    ∧ (ClientA.update_beam_payload titleo (some []) bodyo
      = ClientA.update_beam_payload titleo none bodyo)
    ∧ (ClientA.update_beam_payload titleo tagso (some "")
      = ClientA.update_beam_payload titleo tagso none)
    ∧ (ClientA.tombstone_beam_payload reason (some "")
      = ClientA.tombstone_beam_payload reason none) := by
  refine ⟨rfl, ?_, ?_, rfl, rfl, rfl, rfl⟩
  · simp [ClientA.create_beam_payload]
  · simp [ClientA.create_beam_payload]

/-- C6, witness for the amended theorem at concrete arguments: an empty
`beam_id` produces the same payload as omitting it, and `pinned=False` is
present in the payload. -/
theorem claim6_witness :
    ClientA.create_beam_payload "k" "t" ["x"] "b" (some "") (some false)
      = ClientA.create_beam_payload "k" "t" ["x"] "b" none (some false)
    ∧ "pinned" ∈ (ClientA.create_beam_payload "k" "t" ["x"] "b" none
        (some false)).map Prod.fst :=
  ⟨(claim6_optional_payload_amended "k" "t" "b" "r" ["x"] (some false)
      none none none false).1,
   (claim6_optional_payload_amended "k" "t" "b" "r" ["x"] (some false)
      none none none false).2.1⟩

/-- C7.  For every transport response of the form
`{"beams": [...], "total": N}` whose array elements each parse as a beam,
`query_beams` returns a `BeamQueryResponse` whose `beams` list has the same
length and order as the input array, with every field of each `Beam` taken
verbatim from the corresponding array element, and whose `total` equals
`N` — independent of the array's length. -/
theorem claim7_query_beams_parse (arr : List JValue) (n : JValue)
    (h : ∀ b ∈ arr, ∃ B, ClientA.beamOfJson b = .ok B) :
    ∃ out, ClientA.query_beams_result
        (.response 200 (.obj [("beams", .arr arr), ("total", n)])) = .ok out
      ∧ out.total = n
      ∧ out.beams.length = arr.length
      ∧ ∀ i B b, out.beams.get? i = some B → arr.get? i = some b →
          pyGetItem b "beam_id" = .ok B.beam_id
          ∧ pyGetItem b "kind" = .ok B.kind
          ∧ pyGetItem b "title" = .ok B.title
          ∧ pyGetItem b "tags" = .ok B.tags
          ∧ pyGetItem b "body" = .ok B.body
          ∧ pyGetItem b "status" = .ok B.status
          ∧ pyGetItem b "pinned" = .ok B.pinned
          ∧ pyGetItem b "updated_at_ms" = .ok B.updated_at_ms := by
  obtain ⟨ys, hys, hlen, hcorr⟩ := mapExcept_ok_of_forall ClientA.beamOfJson arr h
  have hred : ClientA.query_beams_result
      (.response 200 (.obj [("beams", .arr arr), ("total", n)]))
      = (mapExcept ClientA.beamOfJson arr).bind
          (fun beams => Except.ok ⟨beams, n⟩) := rfl
  refine ⟨⟨ys, n⟩, ?_, rfl, hlen, ?_⟩
  · rw [hred, hys]
    rfl
  · intro i B b h1 h2
    exact beamOfJson_fields b B (hcorr i B b h1 h2)

/-- C7, witness at a one-element beams array and `total = 2`. -/
theorem claim7_witness :
    ∃ out, ClientA.query_beams_result
        (.response 200 (.obj
          [("beams", .arr [.obj
            [("beam_id", .str "b1"), ("kind", .str "note"), ("title", .str "T"),
             ("tags", .arr []), ("body", .str "B"), ("status", .str "active"),
             ("pinned", .bool true), ("updated_at_ms", .int 5)]]),
           ("total", .int 2)])) = .ok out
      ∧ out.total = .int 2
      ∧ out.beams.length = 1 := by
  obtain ⟨out, h1, h2, h3, _⟩ := claim7_query_beams_parse
    [.obj [("beam_id", .str "b1"), ("kind", .str "note"), ("title", .str "T"),
           ("tags", .arr []), ("body", .str "B"), ("status", .str "active"),
           ("pinned", .bool true), ("updated_at_ms", .int 5)]]
    (.int 2)
    (by
      intro b hb
      rw [List.mem_singleton] at hb
      rw [hb]
      exact ⟨_, rfl⟩)
  exact ⟨out, h1, h2, h3⟩

/-- C8.  The spec (and Client A's own test suite) requires every client to
expose scoped acquisition of its connection resource.  Client B's sync and
async clients do — `__exit__` closes the pool in every case, exception or
not — but Client A's `MathisonClient` defines no `close`, `__enter__` or
`__exit__` at all, even though the package's own tests call `close()` and
use the context-manager protocol: the code contradicts its own tests. -/
theorem claim8_scoped_release_code_bug :
    ("close" ∉ ClientA.methods)
    ∧ ("__enter__" ∉ ClientA.methods)
    ∧ ("__exit__" ∉ ClientA.methods)
    ∧ ("close" ∈ ClientA.testRequiredMethods)
    ∧ ("__enter__" ∈ ClientA.testRequiredMethods)
    ∧ ("__exit__" ∈ ClientA.testRequiredMethods)
    ∧ ("close" ∈ ClientB.methods)
    ∧ ("__enter__" ∈ ClientB.methods)
    ∧ ("__exit__" ∈ ClientB.methods)
    ∧ (∀ (st : ClientB.State) (exc : Option PyExc),
        (ClientB.exitScope st exc).closed = true)
    ∧ (∀ (st : AsyncClientB.State) (exc : Option PyExc),
        (AsyncClientB.exitScope st exc).closed = true) := by
  refine ⟨by decide, by decide, by decide, by decide, by decide, by decide,
    by decide, by decide, by decide, ?_, ?_⟩
  · intro st exc; rfl
  · intro st exc; rfl

/-- C9, counterexample.  The claim says the `Authorization` header is
present iff an `api_key` was configured at construction.  Constructing with
the configured-but-empty key `api_key=""` (truthy test fails) yields no
`Authorization` header in either client, refuting the "if" direction. -/
theorem claim9_counterexample :
    ¬ (("Authorization" ∈ (ClientA.init "u" (some "") 30).session_headers.map Prod.fst)
        ↔ (some "" : Option String) ≠ none)
    ∧ ("Authorization" ∉ (ClientB.headers (some "")).map Prod.fst)
    ∧ ("Authorization" ∉ (AsyncClientB.headers (some "")).map Prod.fst) := by
  refine ⟨?_, by decide, by decide⟩
  intro hiff
  have : "Authorization" ∈ (ClientA.init "u" (some "") 30).session_headers.map Prod.fst :=
    hiff.mpr (by simp)
  revert this
  decide

/-- C9, amended.  Every request of every modeled endpoint carries
`Content-Type: application/json`, and carries `Authorization: Bearer <key>`
iff a non-empty (truthy) `api_key` was configured at construction; requests
built by Client A use the session headers and requests built by Client B
(sync and async) use `_headers()`. -/
theorem claim9_headers_amended (base : String) (api_key : Option String)
    (tA : Int) (st : ClientA.State) (stb : ClientB.State) (sta : AsyncClientB.State)
    (m p : String) (j : Option (List (String × JValue)))
    (q : Option (List (String × Option JValue)))
    (qb : Option (List (String × JValue))) :
    ("Content-Type" ∈ (ClientA.init base api_key tA).session_headers.map Prod.fst)
    ∧ (("Authorization" ∈ (ClientA.init base api_key tA).session_headers.map Prod.fst)
        ↔ pyTruthyOptStr api_key = true)
    ∧ ("Content-Type" ∈ (ClientB.headers api_key).map Prod.fst)
    ∧ (("Authorization" ∈ (ClientB.headers api_key).map Prod.fst)
        ↔ pyTruthyOptStr api_key = true)
    ∧ ("Content-Type" ∈ (AsyncClientB.headers api_key).map Prod.fst)
    ∧ (("Authorization" ∈ (AsyncClientB.headers api_key).map Prod.fst)
        ↔ pyTruthyOptStr api_key = true)
    ∧ ((ClientA.buildRequest st m p j q).headers = st.session_headers)
    ∧ ((ClientB.getRequest stb p qb).headers = ClientB.headers stb.api_key)
    ∧ ((ClientB.postRequest stb p j).headers = ClientB.headers stb.api_key)
    ∧ ((AsyncClientB.getRequest sta p qb).headers = AsyncClientB.headers sta.api_key)
    ∧ ((AsyncClientB.postRequest sta p j).headers = AsyncClientB.headers sta.api_key) := by
  refine ⟨?_, ?_, ?_, ?_, ?_, ?_, rfl, rfl, rfl, rfl, rfl⟩ <;>
  · rcases api_key with _ | k
    · simp [ClientA.init, ClientB.headers, AsyncClientB.headers, pyTruthyOptStr]
    · by_cases hk : k = ""
      · subst hk
        simp [ClientA.init, ClientB.headers, AsyncClientB.headers, pyTruthyOptStr]
      · simp [ClientA.init, ClientB.headers, AsyncClientB.headers, pyTruthyOptStr, hk]

/-- C9, witness for the amended theorem at a client constructed with the
non-empty key `"secret"`. -/
theorem claim9_witness :
    "Content-Type" ∈ (ClientA.init "u" (some "secret") 30).session_headers.map Prod.fst
    ∧ ("Authorization"
        ∈ (ClientA.init "u" (some "secret") 30).session_headers.map Prod.fst
      ↔ pyTruthyOptStr (some "secret") = true) :=
  ⟨(claim9_headers_amended "u" (some "secret") 30 (ClientA.init "u" none 30)
      (ClientB.init "u" none 30) (AsyncClientB.init "u" none 30) "GET" "/x"
      none none none).1,
   (claim9_headers_amended "u" (some "secret") 30 (ClientA.init "u" none 30)
      (ClientB.init "u" none 30) (AsyncClientB.init "u" none 30) "GET" "/x"
      none none none).2.1⟩
